import Mathlib

/-!
Shallow embedding of the Shop Login / Authorize widget sources
(`rejuveen.com` CDN bundle): the presentation-mode policy, the
`shopLoginReducer` state machine, the windoid message demultiplexer, the
Bugsnag `onError` filter, the retrying OpenTelemetry exporter, the
dynamic-import error classifiers and the OpenTelemetry error grouping.

JavaScript strings are modelled as Lean `String`; `a.includes(b)` is the
decidable list-infix test on the underlying character lists.  Machine
time (`Date.now()`) is passed explicitly as a `Nat` argument wherever the
source reads the clock.
-/

namespace Spec2Proof

/-- JS `s.includes(pat)`: substring containment, as infix of char lists. -/
def strIncludes (s pat : String) : Bool :=
  decide (pat.toList <:+: s.toList)

/-- JS `message?.includes(pat)` where `message` may be `undefined`. -/
def optIncludes (m : Option String) (pat : String) : Bool :=
  match m with
  | some s => strIncludes s pat
  | none => false

/-- JS `Boolean(x)` applied to a `boolean | undefined` value. -/
def jsBoolean : Option Bool → Bool
  | some b => b
  | none => false

/-! ## Presentation mode (src/unnamed/part_004) -/

/-- The `PresentationMode` union type: `'button' | 'card'`. -/
inductive PresentationMode where
  | button
  | card
deriving DecidableEq, Repr

/-- Embedding of `getLocalPresentationMode` from src/unnamed/part_004.
`userMatched` is optional in the source (`userMatched?: boolean`); the
JS truthiness test `if (userMatched && !dismissed)` is `jsBoolean`. -/
def getLocalPresentationMode (dismissed : Bool)
    (originalPresentationMode : PresentationMode)
    (userMatched : Option Bool) (userRecognized : Bool) : PresentationMode :=
  if jsBoolean userMatched && !dismissed then
    PresentationMode.card
  else if originalPresentationMode = PresentationMode.button then
    PresentationMode.button
  else if userRecognized && !dismissed then PresentationMode.card
  else PresentationMode.button

/-- Restatement of the presentation-mode policy following the claim text:
card when matched and not dismissed; else button when the original mode
is button; else card exactly when recognized and not dismissed. -/
def getLocalPresentationModeClaim (dismissed : Bool)
    (originalPresentationMode : PresentationMode)
    (userMatched : Option Bool) (userRecognized : Bool) : PresentationMode :=
  if userMatched = some true ∧ dismissed = false then
    PresentationMode.card
  else if originalPresentationMode = PresentationMode.button then
    PresentationMode.button
  else if userRecognized = true ∧ dismissed = false then PresentationMode.card
  else PresentationMode.button

/-! ## ShopLogin state and reducer (src/unnamed/part_005) -/

/-- The `parentTheme` values used by the sources (`'light' | 'dark'`). -/
inductive ParentTheme where
  | light
  | dark
deriving DecidableEq, Repr

/-- The `ShopLoginState` record.  `footerPolicy` and `textVariant` are
opaque payloads; they are modelled as optional strings.
`mountedTimestamp` holds the `Date.now()` reading (ms since epoch). -/
structure ShopLoginState where
  consented : Bool
  cookied : Bool
  dismissed : Bool
  footerPolicy : Option String
  loaded : Bool
  localPresentationMode : PresentationMode
  loginHint : Option String
  matched : Bool
  mountedTimestamp : Option Nat
  parentTheme : ParentTheme
  processing : Bool
  textVariant : Option String
deriving DecidableEq, Repr

/-- The module-level `initialState` constant of src/unnamed/part_005. -/
def initialState : ShopLoginState :=
  { consented := false
    cookied := false
    dismissed := false
    footerPolicy := none
    loaded := false
    localPresentationMode := PresentationMode.button
    loginHint := none
    matched := false
    mountedTimestamp := none
    parentTheme := ParentTheme.light
    processing := false
    textVariant := none }

/-- `createInitialState`: the URL parsing of `isoWindow.location.href`
(`login_hint` query parameter, with a try/catch fallback to `undefined`)
is abstracted as the `loginHint` argument. -/
def createInitialState (presentationMode : PresentationMode)
    (loginHint : Option String) (textVariant : Option String) : ShopLoginState :=
  { initialState with
    localPresentationMode := presentationMode
    loginHint := loginHint
    textVariant := textVariant }

/-- The `ShopLoginAction` union.  Payload fields follow the reducer's
uses: `iframeLoaded` carries `consented` and `loginHintMatch` as optional
booleans (the source coerces them with `Boolean(...)`), `userFound`, an
opaque `footerPolicy` and a `presentation` mode; `other` stands for any
action whose `type` is none of the handled discriminants (the reducer's
`default` branch). -/
inductive ShopLoginAction where
  | dismiss
  | iframeLoaded (consented : Option Bool) (userFound : Bool)
      (footerPolicy : Option String) (loginHintMatch : Option Bool)
      (presentation : PresentationMode)
  | mounted
  | resetState
  | setLocalPresentationMode (payload : PresentationMode)
  | setParentTheme (parentTheme : ParentTheme)
  | setProcessing (payload : Bool)
  | userMatched (userCookieExists : Bool)
  | other
deriving DecidableEq, Repr

/-- Embedding of `shopLoginReducer` from src/unnamed/part_005.  The
source's `Date.now()` call in the `mounted` case reads the ambient
clock; that reading is the explicit `now` argument here. -/
def shopLoginReducer (now : Nat) (state : ShopLoginState)
    (action : ShopLoginAction) : ShopLoginState :=
  match action with
  | ShopLoginAction.dismiss =>
    { state with
      dismissed := true
      localPresentationMode := PresentationMode.button }
  | ShopLoginAction.iframeLoaded consented userFound footerPolicy loginHintMatch presentation =>
    { state with
      consented := jsBoolean consented
      cookied := userFound
      footerPolicy := footerPolicy
      loaded := true
      localPresentationMode := presentation
      matched := jsBoolean loginHintMatch }
  | ShopLoginAction.mounted =>
    { state with mountedTimestamp := some now }
  | ShopLoginAction.resetState => initialState
  | ShopLoginAction.setLocalPresentationMode payload =>
    { state with localPresentationMode := payload }
  | ShopLoginAction.setParentTheme parentTheme =>
    { state with parentTheme := parentTheme }
  | ShopLoginAction.setProcessing payload =>
    { state with processing := payload }
  | ShopLoginAction.userMatched userCookieExists =>
    { state with
      cookied := userCookieExists
      localPresentationMode :=
        if userCookieExists then PresentationMode.button else PresentationMode.card
      loginHint := none
      matched := true }
  | ShopLoginAction.other => state

/-- Run the reducer over a sequence of (clock reading, action) steps. -/
def runShopLogin (start : ShopLoginState)
    (steps : List (Nat × ShopLoginAction)) : ShopLoginState :=
  steps.foldl (fun s step => shopLoginReducer step.1 s step.2) start

/-- Actions that cannot set the local presentation mode to `card`:
`userMatched` with an existing user cookie, `iframeLoaded` whose payload
presentation is `button`, `setLocalPresentationMode` with `button`, and
every action that leaves the mode alone or dismisses. -/
def dismissSafeAction : ShopLoginAction → Bool
  | ShopLoginAction.userMatched userCookieExists => userCookieExists
  | ShopLoginAction.iframeLoaded _ _ _ _ p => decide (p = PresentationMode.button)
  | ShopLoginAction.setLocalPresentationMode p => decide (p = PresentationMode.button)
  | _ => true

/-! ## Windoid message demultiplexer (src/unnamed/part_000) -/

/-- The `type` discriminants handled by `handleWindoidMessage`;
`unrecognized` stands for any other incoming `type` value. -/
inductive WindoidMessageType where
  | completed
  | custom_flow_side_effect
  | error
  | windoidopened
  | close
  | windoidclosed
  | prequal_buyer_upsert_successful
  | unrecognized
deriving DecidableEq, Repr

/-- The handler callbacks a windoid message can be routed to. -/
inductive WindoidHandler where
  | handleComplete
  | handleCustomFlowSideEffect
  | handleError
  | handleOpen
  | handleClose
deriving DecidableEq, Repr

/-- Observable effects of one `handleWindoidMessage` invocation:
which handler callbacks run (the optional ones invoked with `?.` are
recorded whenever the source invokes them), which custom events are
dispatched through `dispatchEvent`, and whether
`windoidRef.current?.close()` is called. -/
structure WindoidEffects where
  handlersInvoked : List WindoidHandler
  dispatched : List String
  windowClosed : Bool
deriving DecidableEq, Repr

/-- Embedding of the `handleWindoidMessage` switch of src/unnamed/part_000,
case by case in source order. -/
def handleWindoidMessage : WindoidMessageType → WindoidEffects
  | WindoidMessageType.completed =>
    ⟨[WindoidHandler.handleComplete], ["completed"], true⟩
  | WindoidMessageType.custom_flow_side_effect =>
    ⟨[WindoidHandler.handleCustomFlowSideEffect], [], false⟩
  | WindoidMessageType.error =>
    ⟨[WindoidHandler.handleError], ["error"], true⟩
  | WindoidMessageType.windoidopened =>
    ⟨[WindoidHandler.handleOpen], ["windoidopened"], false⟩
  | WindoidMessageType.close =>
    ⟨[WindoidHandler.handleClose], ["windoidclosed"], true⟩
  | WindoidMessageType.windoidclosed =>
    ⟨[WindoidHandler.handleClose], ["windoidclosed"], true⟩
  | WindoidMessageType.prequal_buyer_upsert_successful =>
    ⟨[], ["buyerOnboardingSuccess"], true⟩
  | WindoidMessageType.unrecognized => ⟨[], [], false⟩

/-- The handler mapping as the claim states it: completed, custom flow
side effect, error and windoidopened go to their namesake handlers,
close and windoidclosed go to `handleClose`, everything else to none. -/
def windoidHandlerFor : WindoidMessageType → List WindoidHandler
  | WindoidMessageType.completed => [WindoidHandler.handleComplete]
  | WindoidMessageType.custom_flow_side_effect =>
    [WindoidHandler.handleCustomFlowSideEffect]
  | WindoidMessageType.error => [WindoidHandler.handleError]
  | WindoidMessageType.windoidopened => [WindoidHandler.handleOpen]
  | WindoidMessageType.close => [WindoidHandler.handleClose]
  | WindoidMessageType.windoidclosed => [WindoidHandler.handleClose]
  | WindoidMessageType.prequal_buyer_upsert_successful => []
  | WindoidMessageType.unrecognized => []

/-! ## Bugsnag onError filter (src/.../foundation/Bugsnag/Bugsnag.ts) -/

def MONORAIL_NETWORK_ERROR_BACKPRESSURE_MARKER : String :=
  "Backpressure applied"

def MONORAIL_NETWORK_ERROR_MARKER : String :=
  "A network failure may have prevented the request from completing"

def UNACTIONABLE_NETWORK_ERRORS : List String :=
  ["Load failed", "Failed to fetch", "when attempting to fetch resource"]

def DYNAMIC_IMPORT_ERRORS : List String :=
  ["Failed to fetch dynamically imported module",
   "Importing a module script failed"]

def SANDBOXED_COOKIE_ERROR_MARKER : String :=
  "Failed to read the \x27cookie\x27 property from \x27Document\x27"

def SANDBOXED_MESSAGE_MARKER : String := "sandboxed"

def CROSS_ORIGIN_FRAME_ERROR_MARKER : String := "Blocked a frame with origin"

def CROSS_ORIGIN_FRAME_ACCESS_MARKER : String :=
  "from accessing a cross-origin frame"

def SHOP_PAY_PAYMENT_REQUEST_FEATURE_ALLOWLIST : List String :=
  ["ShopPayPaymentRequest", "ShopPayPaymentRequestButton",
   "ShopPayPaymentRequestLogin"]

def UNACTIONABLE_ERROR_CLASSES : List String :=
  ["NotFoundError", "NotSupportedError", "ReferenceError", "SyntaxError",
   "TypeError"]

/-- One bugsnag stack frame; only the `inProject` flag is read. -/
structure BugsnagStackFrame where
  inProject : Bool
deriving DecidableEq, Repr

/-- A `BugsnagException`: error class, optional message, stacktrace. -/
structure BugsnagException where
  errorClass : String
  message : Option String
  stacktrace : List BugsnagStackFrame
deriving DecidableEq, Repr

/-- A `BugsnagEvent`; only the `exceptions` array matters for the filter. -/
structure BugsnagEvent where
  exceptions : List BugsnagException
deriving DecidableEq, Repr

inductive NetworkErrorType where
  | NetworkError
  | DynamicImportError
deriving DecidableEq, Repr

/-- Embedding of `_isMonorailNetworkError`. -/
def _isMonorailNetworkError (errorMessage : Option String) : Bool :=
  optIncludes errorMessage MONORAIL_NETWORK_ERROR_MARKER ||
    optIncludes errorMessage MONORAIL_NETWORK_ERROR_BACKPRESSURE_MARKER

/-- Embedding of `isIgnorable`.  The caller passes
`typeof feature === 'string' ? feature : undefined`; non-string feature
values therefore behave like an absent feature and `feature` is modelled
as `Option String`. -/
def isIgnorable (exception : BugsnagException) (feature : Option String) : Bool :=
  let isSandboxedCookieError :=
    decide (exception.errorClass = "SecurityError") &&
      optIncludes exception.message SANDBOXED_COOKIE_ERROR_MARKER &&
      optIncludes exception.message SANDBOXED_MESSAGE_MARKER
  let isCrossOriginFrameAccessError :=
    decide (exception.errorClass = "SecurityError") &&
      optIncludes exception.message CROSS_ORIGIN_FRAME_ERROR_MARKER &&
      optIncludes exception.message CROSS_ORIGIN_FRAME_ACCESS_MARKER
  let isShopPayPaymentRequestFeature :=
    match feature with
    | some f => SHOP_PAY_PAYMENT_REQUEST_FEATURE_ALLOWLIST.contains f
    | none => false
  let isInProject := exception.stacktrace.any (fun st => st.inProject)
  !isInProject || isSandboxedCookieError ||
    (isCrossOriginFrameAccessError && isShopPayPaymentRequestFeature)

/-- Embedding of `isUnactionable`. -/
def isUnactionable (exception : BugsnagException) : Bool :=
  UNACTIONABLE_ERROR_CLASSES.contains exception.errorClass

/-- Embedding of `isNetworkError`. -/
def isNetworkError (exception : BugsnagException) : Bool :=
  decide (exception.errorClass = "NetworkError") ||
    UNACTIONABLE_NETWORK_ERRORS.any
      (fun networkMessage => optIncludes exception.message networkMessage) ||
    _isMonorailNetworkError exception.message

/-- Embedding of `isDynamicImportError`. -/
def isDynamicImportError (exception : BugsnagException) : Bool :=
  DYNAMIC_IMPORT_ERRORS.any
    (fun importErrorMessage => optIncludes exception.message importErrorMessage)

/-- Outcome of one `handleCreateBugsnagParamsError` call: whether the
function returns `false` (the branches that keep the event return
`undefined`, which is not `false`), and the argument of the
`onNetworkError` invocation when one happens (`some none` means the
call `onNetworkError()` without an argument). -/
structure BugsnagOnErrorOutcome where
  returnsFalse : Bool
  networkCall : Option (Option NetworkErrorType)
deriving DecidableEq, Repr

/-- Embedding of `handleCreateBugsnagParamsError`.  `event.exceptions[0]`
is `head?`; the mutation of `event.device`, `event.metaData` and
`event.request` in the keep branch does not affect the return value or
the `onNetworkError` call and is not modelled. -/
def handleCreateBugsnagParamsError (event : BugsnagEvent)
    (feature : Option String) : BugsnagOnErrorOutcome :=
  match event.exceptions.head? with
  | none => ⟨true, none⟩
  | some exception =>
    if isIgnorable exception feature then ⟨true, none⟩
    else if isUnactionable exception then ⟨true, none⟩
    else if isDynamicImportError exception then
      ⟨true, some (some NetworkErrorType.DynamicImportError)⟩
    else if isNetworkError exception then ⟨true, some none⟩
    else ⟨false, none⟩

/-! ## ExporterWithRetries (src/.../OpenTelemetry/ExporterWithRetries.ts) -/

/-- The `retryAfter` metadata object (`{seconds}`). -/
structure RetryAfter where
  seconds : Nat
deriving DecidableEq, Repr

/-- The `metadata` of an `OpenTelemetryClientError`. -/
structure OtelMetadata where
  retryAfter : Option RetryAfter
deriving DecidableEq, Repr

/-- A value thrown by the wrapped exporter: an
`OpenTelemetryClientError` (with its optional metadata) or any other
error, tagged so that propagation "unchanged" is expressible. -/
inductive OtelExportError where
  | clientError (metadata : Option OtelMetadata)
  | otherError (tag : Nat)
deriving DecidableEq, Repr

/-- Outcome of one wrapped `exportMetrics` / `exportLogs` call. -/
inductive ExportAttempt where
  | success
  | failure (error : OtelExportError)
deriving DecidableEq, Repr

/-- Observable outcome of an `ExporterWithRetries` export: the sequence
of `setTimeout` delays (ms) spent before the returned promise settles,
and the error it rejects with (`none` = it resolves). -/
structure ExportOutcome where
  delaysMs : List Nat
  thrown : Option OtelExportError
deriving DecidableEq, Repr

/-- The `error.metadata?.retryAfter` read, guarded by the
`instanceof OpenTelemetryClientError` test. -/
def retryAfterOf : OtelExportError → Option RetryAfter
  | OtelExportError.clientError metadata =>
    metadata.bind (fun m => m.retryAfter)
  | OtelExportError.otherError _ => none

/-- Embedding of `ExporterWithRetries.exportMetrics`, run against the
list of successive outcomes of the wrapped exporter's calls.  A
retryable failure waits `retryAfter.seconds * 1000` ms, then retries on
the remaining outcomes; the outer promise is resolved by
`.finally(resolve)` once the retry chain settles, so it resolves even
when the chain's own promise rejects.  Any other failure rethrows the
error unchanged.  (The `keepalive` option recomputed per attempt does
not affect control flow and is not modelled.) -/
def exportMetrics : List ExportAttempt → ExportOutcome
  | [] => ⟨[], none⟩
  | ExportAttempt.success :: _ => ⟨[], none⟩
  | ExportAttempt.failure e :: rest =>
    match retryAfterOf e with
    | some ra =>
      let chain := exportMetrics rest
      ⟨ra.seconds * 1000 :: chain.delaysMs, none⟩
    | none => ⟨[], some e⟩

/-- Embedding of `ExporterWithRetries.exportLogs`; the source duplicates
the `exportMetrics` body verbatim for logs. -/
def exportLogs : List ExportAttempt → ExportOutcome
  | [] => ⟨[], none⟩
  | ExportAttempt.success :: _ => ⟨[], none⟩
  | ExportAttempt.failure e :: rest =>
    match retryAfterOf e with
    | some ra =>
      let chain := exportLogs rest
      ⟨ra.seconds * 1000 :: chain.delaysMs, none⟩
    | none => ⟨[], some e⟩

/-! ## Dynamic-import error classifiers (src/unnamed/part_002) -/

/-- JS `String.prototype.replace(pat, \x27\x27)` on character lists:
remove the first occurrence of `pat`, leave the rest untouched. -/
def jsReplaceFirstAux (pat : List Char) : List Char → List Char
  | [] => []
  | c :: rest =>
    if pat.isPrefixOf (c :: rest) then List.drop pat.length (c :: rest)
    else c :: jsReplaceFirstAux pat rest

/-- JS `s.replace(pat, \x27\x27)` for a plain string pattern. -/
def jsReplaceFirst (pat s : String) : String :=
  String.mk (jsReplaceFirstAux pat.toList s.toList)

/-- JS `String.prototype.trim` on character lists (the whitespace set is
restricted to `Char.isWhitespace`, which covers the characters appearing
in the modelled messages). -/
def jsTrimList (l : List Char) : List Char :=
  ((l.dropWhile Char.isWhitespace).reverse.dropWhile Char.isWhitespace).reverse

/-- JS `s.trim()`. -/
def jsTrim (s : String) : String :=
  String.mk (jsTrimList s.toList)

/-- The Chrome/Firefox dynamic-import failure message marker stripped by
`extractUrlFromError` (with its trailing separator). -/
def DYNAMIC_IMPORT_URL_MARKER : String :=
  "Failed to fetch dynamically imported module: "

/-- Embedding of `convertStringToUrl`: `new isoWindow.URL(url)` inside
try/catch.  The browser URL parser is not part of this repository, so it
is the explicit `parse` argument; `parse s = none` models the
constructor throwing (caught and turned into `null`). -/
def convertStringToUrl {Url : Type} (parse : String → Option Url)
    (url : String) : Option Url :=
  parse url

/-- Embedding of `isGenericModuleError`. -/
def isGenericModuleError (message : String) : Bool :=
  strIncludes message "Importing a module script failed"

/-- Embedding of `extractUrlFromError`: remove the marker from the
message, trim, and hand the remainder to `convertStringToUrl`. -/
def extractUrlFromError {Url : Type} (parse : String → Option Url)
    (message : String) : Option Url :=
  convertStringToUrl parse (jsTrim (jsReplaceFirst DYNAMIC_IMPORT_URL_MARKER message))

/-! ## OpenTelemetry error grouping (src/unnamed/part_007) -/

/-- The `opentelErrorGrouping` record as (key, grouped message) pairs in
declaration order. -/
def opentelErrorGrouping : List (String × String) :=
  [("blockedRequest", "Blocked Request"),
   ("emptyeEventCreatedAtMs",
    "event_created_at_ms metadata field cannot be empty"),
   ("errorParsingCreatedAtMs",
    "Error parsing: X-Monorail-Edge-Event-Created-At-Ms"),
   ("failedToReadRequestBody", "Failed to read request body"),
   ("incorrectContentType",
    "Incorrect Content-Type. Expected: application/json or text/plain"),
   ("methodNotAllowed", "Method Not Allowed"),
   ("noPermissionToGetURL",
    "Your client does not have permission to get URL"),
   ("noResponseFromEdge", "No response from edge"),
   ("schemaValidationError", "Schema validation error")]

/-- JS array destructuring `[_, value]` applied to a string iterates its
characters: `value` is the second character (as a one-character string),
or `undefined` when the string is shorter.  JS `includes(undefined)`
coerces to the string "undefined". -/
def jsSecondCharPattern (s : String) : String :=
  match s.toList.get? 1 with
  | some c => String.singleton c
  | none => "undefined"

/-- JS string indexing `s[0]`: first character, or `undefined` (falsy,
so `|| \x27otherErrors\x27` applies) when the string is empty. -/
def jsFirstCharOr (s : String) (fallback : String) : String :=
  match s.toList.head? with
  | some c => String.singleton c
  | none => fallback

/-- Embedding of `groupOpentelError`.  The source calls
`Object.values(opentelErrorGrouping)`, producing the grouped message
strings (not `[key, value]` entries); the callback destructures each
string as `[_, value]`, so the membership test uses the string's second
character and `groupEntry?.[0]` is the matched string's first character. -/
def groupOpentelError (message : String) : String :=
  match (opentelErrorGrouping.map (fun kv => kv.2)).find?
      (fun v => strIncludes message (jsSecondCharPattern v)) with
  | some groupEntry => jsFirstCharOr groupEntry "otherErrors"
  | none => "otherErrors"

/-- The grouping the surrounding code intends (an `Object.entries`
iteration): the key of the first entry whose grouped message is
contained in the error message, else "otherErrors". -/
def groupOpentelErrorIntended (message : String) : String :=
  match opentelErrorGrouping.find? (fun kv => strIncludes message kv.2) with
  | some kv => kv.1
  | none => "otherErrors"

/-! ## Deferred postMessage helpers (AuthorizeIframe/utils.ts and
LoginRecognition/components/LoginIframe.tsx) -/

/-- One observable step of a `postMessageHelper` run.
Modelled from the spec: `waitForMessage` (provided by
`useAuthorizeEventListener`, whose implementation is not under src/)
suspends until a message of the given type arrives from the iframe, so a
`waitForMessage "loaded"` step completes only once a `loaded` message
has been received; `post` is the `postMessage` to the iframe's
`contentWindow`. -/
inductive IframePostStep where
  | waitForMessage (messageType : String)
  | post (event : String)
deriving DecidableEq, Repr

/-- Embedding of the AuthorizeIframe `postMessageHelper`: the options
object is optional and `afterLoaded` defaults to `false`
(`{afterLoaded = false} = {}`); `options = some o` models a call with an
options object whose `afterLoaded` field is `o`. -/
def postMessageHelperAuthorize (loaded : Bool)
    (options : Option (Option Bool)) (event : String) : List IframePostStep :=
  let afterLoaded := jsBoolean (options.bind id)
  if afterLoaded && !loaded then
    [IframePostStep.waitForMessage "loaded", IframePostStep.post event]
  else [IframePostStep.post event]

/-- Embedding of the LoginIframe `postMessageHelper`
(`Boolean(options?.afterLoaded)`). -/
def postMessageHelperLogin (loaded : Bool)
    (options : Option (Option Bool)) (event : String) : List IframePostStep :=
  let afterLoaded := jsBoolean (options.bind id)
  if afterLoaded && !loaded then
    [IframePostStep.waitForMessage "loaded", IframePostStep.post event]
  else [IframePostStep.post event]

/-- A concrete exception whose message carries the Chrome dynamic-import
failure marker, with an in-project stack frame. -/
def bugsnagDynImportException : BugsnagException :=
  { errorClass := "Error"
    message := some "Failed to fetch dynamically imported module: https://x"
    stacktrace := [⟨true⟩] }

/-- A concrete Bugsnag event wrapping `bugsnagDynImportException`. -/
def bugsnagDynImportEvent : BugsnagEvent :=
  { exceptions := [bugsnagDynImportException] }

/-! ## Theorems -/

/-- C1: for every input, `getLocalPresentationMode` is `card` when
`userMatched` is true and `dismissed` is false; otherwise `button` when
the original presentation mode is `button`; otherwise `card` exactly
when `userRecognized` is true and `dismissed` is false and `button` in
all remaining cases — the effective UI mode is a function of only the
dismissed, original-mode and matched/recognized flags, as stated by
`getLocalPresentationModeClaim`. -/
theorem getLocalPresentationMode_policy :
    ∀ (dismissed : Bool) (originalPresentationMode : PresentationMode)
      (userMatched : Option Bool) (userRecognized : Bool),
      getLocalPresentationMode dismissed originalPresentationMode
          userMatched userRecognized =
        getLocalPresentationModeClaim dismissed originalPresentationMode
          userMatched userRecognized := by
  intro d o um ur
  rcases um with _ | b
  · cases d <;> cases o <;> cases ur <;> rfl
  · cases b <;> cases d <;> cases o <;> cases ur <;> rfl

/-- C3 counterexample: `shopLoginReducer` reads the ambient clock — the
`mounted` action produces different states from identical
(state, action) arguments under two different `Date.now()` readings, so
the reducer is not a pure function of the argument pair. -/
theorem shopLoginReducer_reads_clock :
    shopLoginReducer 0 initialState ShopLoginAction.mounted ≠
      shopLoginReducer 1 initialState ShopLoginAction.mounted := by
  decide

/-- C3 (amended): for every action other than `mounted`,
`shopLoginReducer` is determined solely by the (state, action) pair —
its result is independent of the clock reading; only the `mounted` case
reads `Date.now()` (into `mountedTimestamp`). -/
theorem shopLoginReducer_pure_except_mounted :
    ∀ (t t2 : Nat) (s : ShopLoginState) (a : ShopLoginAction),
      a ≠ ShopLoginAction.mounted →
      shopLoginReducer t s a = shopLoginReducer t2 s a := by
  intro t t2 s a h
  cases a <;> first | rfl | exact absurd rfl h

/-- C3 witness: the clock-independence theorem applied at the `dismiss`
action with two distinct clock readings. -/
theorem shopLoginReducer_pure_except_mounted_witness :
    shopLoginReducer 0 initialState ShopLoginAction.dismiss =
      shopLoginReducer 7 initialState ShopLoginAction.dismiss :=
  shopLoginReducer_pure_except_mounted 0 7 initialState
    ShopLoginAction.dismiss (by decide)

/-- C10: the reducer's `default` branch returns the state unchanged for
an action of any unhandled type; `setProcessing` changes only the
`processing` field and `setParentTheme` changes only the `parentTheme`
field, every other field being preserved. -/
theorem shopLoginReducer_frame :
    ∀ (t : Nat) (s : ShopLoginState),
      shopLoginReducer t s ShopLoginAction.other = s ∧
      (∀ b : Bool,
        (shopLoginReducer t s (ShopLoginAction.setProcessing b)).processing = b ∧
        (shopLoginReducer t s (ShopLoginAction.setProcessing b)).consented = s.consented ∧
        (shopLoginReducer t s (ShopLoginAction.setProcessing b)).cookied = s.cookied ∧
        (shopLoginReducer t s (ShopLoginAction.setProcessing b)).dismissed = s.dismissed ∧
        (shopLoginReducer t s (ShopLoginAction.setProcessing b)).footerPolicy = s.footerPolicy ∧
        (shopLoginReducer t s (ShopLoginAction.setProcessing b)).loaded = s.loaded ∧
        (shopLoginReducer t s (ShopLoginAction.setProcessing b)).localPresentationMode = s.localPresentationMode ∧
        (shopLoginReducer t s (ShopLoginAction.setProcessing b)).loginHint = s.loginHint ∧
        (shopLoginReducer t s (ShopLoginAction.setProcessing b)).matched = s.matched ∧
        (shopLoginReducer t s (ShopLoginAction.setProcessing b)).mountedTimestamp = s.mountedTimestamp ∧
        (shopLoginReducer t s (ShopLoginAction.setProcessing b)).parentTheme = s.parentTheme ∧
        (shopLoginReducer t s (ShopLoginAction.setProcessing b)).textVariant = s.textVariant) ∧
      (∀ th : ParentTheme,
        (shopLoginReducer t s (ShopLoginAction.setParentTheme th)).parentTheme = th ∧
        (shopLoginReducer t s (ShopLoginAction.setParentTheme th)).consented = s.consented ∧
        (shopLoginReducer t s (ShopLoginAction.setParentTheme th)).cookied = s.cookied ∧
        (shopLoginReducer t s (ShopLoginAction.setParentTheme th)).dismissed = s.dismissed ∧
        (shopLoginReducer t s (ShopLoginAction.setParentTheme th)).footerPolicy = s.footerPolicy ∧
        (shopLoginReducer t s (ShopLoginAction.setParentTheme th)).loaded = s.loaded ∧
        (shopLoginReducer t s (ShopLoginAction.setParentTheme th)).localPresentationMode = s.localPresentationMode ∧
        (shopLoginReducer t s (ShopLoginAction.setParentTheme th)).loginHint = s.loginHint ∧
        (shopLoginReducer t s (ShopLoginAction.setParentTheme th)).matched = s.matched ∧
        (shopLoginReducer t s (ShopLoginAction.setParentTheme th)).mountedTimestamp = s.mountedTimestamp ∧
        (shopLoginReducer t s (ShopLoginAction.setParentTheme th)).processing = s.processing ∧
        (shopLoginReducer t s (ShopLoginAction.setParentTheme th)).textVariant = s.textVariant) := by
  intro t s
  refine ⟨rfl, fun b => ?_, fun th => ?_⟩ <;>
    exact ⟨rfl, rfl, rfl, rfl, rfl, rfl, rfl, rfl, rfl, rfl, rfl, rfl⟩

/-- C2 counterexample: a reachable state with `dismissed = true` and
`localPresentationMode = card` — dispatch `dismiss` and then
`userMatched` with `userCookieExists = false` from the initial state. -/
theorem dismissed_card_reachable :
    (runShopLogin initialState
        [(0, ShopLoginAction.dismiss),
         (0, ShopLoginAction.userMatched false)]).dismissed = true ∧
    (runShopLogin initialState
        [(0, ShopLoginAction.dismiss),
         (0, ShopLoginAction.userMatched false)]).localPresentationMode =
      PresentationMode.card := by
  decide

lemma dismissInv_step (t : Nat) (s : ShopLoginState) (a : ShopLoginAction)
    (hs : s.dismissed = true →
      s.localPresentationMode = PresentationMode.button)
    (ha : dismissSafeAction a = true) :
    (shopLoginReducer t s a).dismissed = true →
      (shopLoginReducer t s a).localPresentationMode =
        PresentationMode.button := by
  cases a with
  | dismiss => intro _; rfl
  | iframeLoaded c u f l p =>
    have hp : p = PresentationMode.button := by
      simpa [dismissSafeAction] using ha
    simp [shopLoginReducer, hp]
  | mounted => simpa [shopLoginReducer] using hs
  | resetState => simp [shopLoginReducer, initialState]
  | setLocalPresentationMode p =>
    have hp : p = PresentationMode.button := by
      simpa [dismissSafeAction] using ha
    simp [shopLoginReducer, hp]
  | setParentTheme th => simpa [shopLoginReducer] using hs
  | setProcessing b => simpa [shopLoginReducer] using hs
  | userMatched b =>
    have hb : b = true := by simpa [dismissSafeAction] using ha
    simp [shopLoginReducer, hb]
  | other => simpa [shopLoginReducer] using hs

lemma dismissInv_run :
    ∀ (steps : List (Nat × ShopLoginAction)) (s : ShopLoginState),
      (s.dismissed = true →
        s.localPresentationMode = PresentationMode.button) →
      (∀ p ∈ steps, dismissSafeAction p.2 = true) →
      ((runShopLogin s steps).dismissed = true →
        (runShopLogin s steps).localPresentationMode =
          PresentationMode.button)
  | [], _, hs, _ => hs
  | (t, a) :: rest, s, hs, hsteps => by
    have h1 : dismissSafeAction a = true := hsteps (t, a) (by simp)
    have h2 : ∀ p ∈ rest, dismissSafeAction p.2 = true := fun p hp =>
      hsteps p (by simp [hp])
    have h3 := dismissInv_run rest (shopLoginReducer t s a)
      (dismissInv_step t s a hs h1) h2
    simpa [runShopLogin, List.foldl] using h3

/-- C2 (amended): in every state reachable from an initial state by a
sequence of `shopLoginReducer` actions containing no action that sets
the presentation mode to `card` (`userMatched` without an existing user
cookie, `iframeLoaded` with payload presentation `card`, or
`setLocalPresentationMode card`), a true `dismissed` flag implies
`localPresentationMode = button`.  Without that restriction the
invariant fails: see the counterexample, where `userMatched` re-expands
a dismissed widget. -/
theorem dismissed_implies_button_of_safe :
    ∀ (pm : PresentationMode) (hint tv : Option String)
      (steps : List (Nat × ShopLoginAction)),
      (∀ p ∈ steps, dismissSafeAction p.2 = true) →
      (runShopLogin (createInitialState pm hint tv) steps).dismissed = true →
      (runShopLogin (createInitialState pm hint tv) steps).localPresentationMode =
        PresentationMode.button := by
  intro pm hint tv steps hsteps
  exact dismissInv_run steps (createInitialState pm hint tv)
    (by intro h; simp [createInitialState, initialState] at h) hsteps

/-- C2 witness: the amended invariant applied to the concrete sequence
dismissing a card-mode widget. -/
theorem dismissed_implies_button_of_safe_witness :
    (runShopLogin (createInitialState PresentationMode.card none none)
        [(0, ShopLoginAction.dismiss)]).localPresentationMode =
      PresentationMode.button :=
  dismissed_implies_button_of_safe PresentationMode.card none none
    [(0, ShopLoginAction.dismiss)] (by simp [dismissSafeAction]) (by decide)

/-- C6: `handleWindoidMessage` invokes exactly the handler matching the
message's type discriminant (as listed by `windoidHandlerFor`), closes
the windoid window exactly for the types completed, error, close,
windoidclosed and prequal_buyer_upsert_successful, and for a message of
any unrecognized type invokes no handler, dispatches no event and does
not close the window. -/
theorem handleWindoidMessage_demux :
    ∀ t : WindoidMessageType,
      (handleWindoidMessage t).handlersInvoked = windoidHandlerFor t ∧
      ((handleWindoidMessage t).windowClosed = true ↔
        t ∈ [WindoidMessageType.completed, WindoidMessageType.error,
             WindoidMessageType.close, WindoidMessageType.windoidclosed,
             WindoidMessageType.prequal_buyer_upsert_successful]) ∧
      (t = WindoidMessageType.unrecognized →
        handleWindoidMessage t = ⟨[], [], false⟩) := by
  intro t
  cases t <;> refine ⟨rfl, by decide, ?_⟩ <;> intro h <;>
    first | rfl | cases h

/-- C6 witness: the demultiplexer theorem applied at an unrecognized
message type. -/
theorem handleWindoidMessage_demux_witness :
    handleWindoidMessage WindoidMessageType.unrecognized = ⟨[], [], false⟩ :=
  (handleWindoidMessage_demux WindoidMessageType.unrecognized).2.2 rfl

/-- C5: an export failing with an `OpenTelemetryClientError` carrying
`retryAfter` is retried after `retryAfter.seconds` seconds
(`seconds * 1000` ms of `setTimeout` delay) and the returned promise
resolves only after the retry chain finishes (its delays follow); any
other failure — a non-client error or a client error without
`retryAfter` — propagates unchanged with no retry; a successful wrapped
call resolves with no delay.  Stated for both `exportMetrics` and
`exportLogs`. -/
theorem exporterWithRetries_backoff :
    (∀ (ra : RetryAfter) (md : OtelMetadata) (rest : List ExportAttempt),
      md.retryAfter = some ra →
      exportMetrics (ExportAttempt.failure
          (OtelExportError.clientError (some md)) :: rest) =
        ⟨ra.seconds * 1000 :: (exportMetrics rest).delaysMs, none⟩ ∧
      exportLogs (ExportAttempt.failure
          (OtelExportError.clientError (some md)) :: rest) =
        ⟨ra.seconds * 1000 :: (exportLogs rest).delaysMs, none⟩) ∧
    (∀ (e : OtelExportError) (rest : List ExportAttempt),
      retryAfterOf e = none →
      exportMetrics (ExportAttempt.failure e :: rest) = ⟨[], some e⟩ ∧
      exportLogs (ExportAttempt.failure e :: rest) = ⟨[], some e⟩) ∧
    (∀ rest : List ExportAttempt,
      exportMetrics (ExportAttempt.success :: rest) = ⟨[], none⟩ ∧
      exportLogs (ExportAttempt.success :: rest) = ⟨[], none⟩) := by
  refine ⟨fun ra md rest h => ?_, fun e rest h => ?_,
    fun rest => ⟨rfl, rfl⟩⟩
  · constructor <;> simp [exportMetrics, exportLogs, retryAfterOf, h]
  · constructor <;> simp [exportMetrics, exportLogs, h]

/-- C5 witness: a client error with `retryAfter = 3` seconds followed by
a success yields one retry after 3000 ms and a resolved promise. -/
theorem exporterWithRetries_backoff_witness :
    exportMetrics [ExportAttempt.failure (OtelExportError.clientError
        (some ⟨some ⟨3⟩⟩)), ExportAttempt.success] = ⟨[3000], none⟩ := by
  have h := (exporterWithRetries_backoff.1 ⟨3⟩ ⟨some ⟨3⟩⟩
    [ExportAttempt.success] rfl).1
  simpa [exportMetrics] using h

/-- C7: whenever `postMessageHelper` is invoked with `afterLoaded` true
while the `loaded` state flag is false, the trace waits for a `loaded`
message before the `post` step (so nothing is posted to the iframe's
`contentWindow` before a `loaded` message has been received); when
`afterLoaded` is false or `loaded` is already true, the message is
posted immediately.  Stated for both the AuthorizeIframe and the
LoginIframe helper. -/
theorem postMessageHelper_defers_until_loaded :
    ∀ (loaded : Bool) (options : Option (Option Bool)) (event : String),
      (jsBoolean (options.bind id) = true → loaded = false →
        postMessageHelperAuthorize loaded options event =
          [IframePostStep.waitForMessage "loaded",
           IframePostStep.post event] ∧
        postMessageHelperLogin loaded options event =
          [IframePostStep.waitForMessage "loaded",
           IframePostStep.post event]) ∧
      (jsBoolean (options.bind id) = false ∨ loaded = true →
        postMessageHelperAuthorize loaded options event =
          [IframePostStep.post event] ∧
        postMessageHelperLogin loaded options event =
          [IframePostStep.post event]) := by
  intro loaded options event
  constructor
  · intro h1 h2
    subst h2
    have h1a : jsBoolean (options.bind fun a => a) = true := h1
    constructor <;>
      simp [postMessageHelperAuthorize, postMessageHelperLogin, h1a]
  · intro h
    rcases h with h | h
    · have ha : jsBoolean (options.bind fun a => a) = false := h
      constructor <;>
        simp [postMessageHelperAuthorize, postMessageHelperLogin, ha]
    · subst h
      constructor <;>
        simp [postMessageHelperAuthorize, postMessageHelperLogin]

/-- C7 witness: the deferral theorem applied with `afterLoaded` true and
the loaded flag false. -/
theorem postMessageHelper_defers_until_loaded_witness :
    postMessageHelperAuthorize false (some (some true)) "e" =
      [IframePostStep.waitForMessage "loaded", IframePostStep.post "e"] :=
  ((postMessageHelper_defers_until_loaded false (some (some true)) "e").1
    rfl rfl).1

/-- C4: the Bugsnag onError filter returns `false` exactly when the
event has no exception, the exception is ignorable, its error class is
unactionable, or it is a dynamic-import or network error; and because
the dynamic-import check precedes the network check, an exception whose
message contains "Failed to fetch dynamically imported module" — a
message that therefore also contains the network marker
"Failed to fetch" — can only ever reach `onNetworkError` with the
`DynamicImportError` type, never with the plain network-error type. -/
theorem handleCreateBugsnagParamsError_filter :
    ∀ (event : BugsnagEvent) (feature : Option String),
      ((handleCreateBugsnagParamsError event feature).returnsFalse = true ↔
        (event.exceptions.head? = none ∨
          ∃ exc, event.exceptions.head? = some exc ∧
            (isIgnorable exc feature = true ∨ isUnactionable exc = true ∨
             isDynamicImportError exc = true ∨ isNetworkError exc = true))) ∧
      (∀ exc, event.exceptions.head? = some exc →
        optIncludes exc.message
            "Failed to fetch dynamically imported module" = true →
        (optIncludes exc.message "Failed to fetch" = true ∧
         (handleCreateBugsnagParamsError event feature).networkCall ≠
           some none ∧
         ((handleCreateBugsnagParamsError event feature).networkCall = none ∨
          (handleCreateBugsnagParamsError event feature).networkCall =
            some (some NetworkErrorType.DynamicImportError)))) := by
  intro event feature
  refine ⟨?_, ?_⟩
  · cases hh : event.exceptions.head? with
    | none => simp [handleCreateBugsnagParamsError, hh]
    | some exc =>
      simp only [handleCreateBugsnagParamsError, hh]
      split_ifs with h1 h2 h3 h4 <;> simp_all
  · intro exc hh hdyn
    have hmsg : ∃ m, exc.message = some m ∧
        strIncludes m "Failed to fetch dynamically imported module" = true := by
      rcases hm : exc.message with _ | m
      · simp [optIncludes, hm] at hdyn
      · exact ⟨m, rfl, by simpa [optIncludes, hm] using hdyn⟩
    rcases hmsg with ⟨m, hm, hstr⟩
    have hinf : ("Failed to fetch dynamically imported module").toList <:+:
        m.toList := of_decide_eq_true hstr
    have hpre : ("Failed to fetch").toList <+:
        ("Failed to fetch dynamically imported module").toList := by decide
    have hfetch : optIncludes exc.message "Failed to fetch" = true := by
      simpa [optIncludes, hm, strIncludes] using hpre.isInfix.trans hinf
    have hdynB : isDynamicImportError exc = true := by
      simp [isDynamicImportError, DYNAMIC_IMPORT_ERRORS, hdyn]
    have houtcome :
        (handleCreateBugsnagParamsError event feature).networkCall = none ∨
        (handleCreateBugsnagParamsError event feature).networkCall =
          some (some NetworkErrorType.DynamicImportError) := by
      simp only [handleCreateBugsnagParamsError, hh]
      split_ifs with h1 h2
      · exact Or.inl rfl
      · exact Or.inl rfl
      · exact Or.inr rfl
    refine ⟨hfetch, ?_, houtcome⟩
    rcases houtcome with h | h <;> rw [h] <;> simp

/-- C4 witness: the filter theorem applied to a concrete event whose
only exception message is a Chrome dynamic-import failure. -/
theorem handleCreateBugsnagParamsError_filter_witness :
    optIncludes bugsnagDynImportException.message "Failed to fetch" = true ∧
    (handleCreateBugsnagParamsError bugsnagDynImportEvent none).networkCall ≠
      some none ∧
    ((handleCreateBugsnagParamsError bugsnagDynImportEvent none).networkCall =
      none ∨
     (handleCreateBugsnagParamsError bugsnagDynImportEvent none).networkCall =
      some (some NetworkErrorType.DynamicImportError)) :=
  (handleCreateBugsnagParamsError_filter bugsnagDynImportEvent none).2
    bugsnagDynImportException rfl (by decide)

lemma jsReplaceFirstAux_of_isPrefixOf (pat l : List Char)
    (hne : pat ≠ []) (h : pat.isPrefixOf l = true) :
    jsReplaceFirstAux pat l = l.drop pat.length := by
  cases l with
  | nil =>
    cases pat with
    | nil => exact absurd rfl hne
    | cons c cs => simp [List.isPrefixOf] at h
  | cons c rest => simp [jsReplaceFirstAux, h]

/-- C8: the dynamic-import classifiers are total functions (no throw:
the URL constructor's try/catch is the `Option`-valued `parse`):
`isGenericModuleError` holds exactly when the message contains
"Importing a module script failed"; `extractUrlFromError` hands the
message, with the marker "Failed to fetch dynamically imported
module: " removed and the remainder trimmed, to the URL parser,
returning the parsed URL when the remainder parses and `null` when it
cannot be parsed; and on a message that starts with the marker, the
removal is exactly the stripping of that prefix. -/
theorem dynamicImportClassifiers_total :
    ∀ (Url : Type) (parse : String → Option Url) (message : String),
      (isGenericModuleError message = true ↔
        ("Importing a module script failed").toList <:+: message.toList) ∧
      (∀ u : Url,
        parse (jsTrim (jsReplaceFirst DYNAMIC_IMPORT_URL_MARKER message)) =
          some u →
        extractUrlFromError parse message = some u) ∧
      (parse (jsTrim (jsReplaceFirst DYNAMIC_IMPORT_URL_MARKER message)) =
          none →
        extractUrlFromError parse message = none) ∧
      (DYNAMIC_IMPORT_URL_MARKER.toList.isPrefixOf message.toList = true →
        jsReplaceFirst DYNAMIC_IMPORT_URL_MARKER message =
          String.mk
            (message.toList.drop DYNAMIC_IMPORT_URL_MARKER.toList.length)) := by
  intro Url parse message
  refine ⟨?_, fun u hu => hu, fun hn => hn, fun hpre => ?_⟩
  · constructor
    · intro h
      exact of_decide_eq_true h
    · intro h
      exact decide_eq_true h
  · have hne : DYNAMIC_IMPORT_URL_MARKER.toList ≠ [] := by decide
    unfold jsReplaceFirst
    rw [jsReplaceFirstAux_of_isPrefixOf _ _ hne hpre]

/-- C8 witness: the classifier theorem applied with the identity parser
to a Chrome dynamic-import failure message with padding whitespace. -/
theorem dynamicImportClassifiers_total_witness :
    extractUrlFromError (fun s => some s)
        "Failed to fetch dynamically imported module: https://cdn.example/x.js " =
      some "https://cdn.example/x.js" :=
  (dynamicImportClassifiers_total String (fun s => some s)
      "Failed to fetch dynamically imported module: https://cdn.example/x.js ").2.1
    "https://cdn.example/x.js" (by decide)

/-- C9: `groupOpentelError` does not return the record key of the
matched grouping — `Object.values` yields the grouped message strings,
the `find` callback destructures each string into its characters, and
`groupEntry?.[0]` is the matched string's first character.  On message
"Blocked Request" it returns "B" (not "blockedRequest", which the
intended `Object.entries` grouping `groupOpentelErrorIntended`
returns), and on "hello" — which contains no grouped message — it
returns "B" instead of "otherErrors" because the test only looks for
each grouped message's second character. -/
theorem groupOpentelError_object_values_bug :
    groupOpentelError "Blocked Request" = "B" ∧
    groupOpentelErrorIntended "Blocked Request" = "blockedRequest" ∧
    groupOpentelError "hello" = "B" ∧
    groupOpentelErrorIntended "hello" = "otherErrors" := by
  decide

end Spec2Proof
